import Mathlib

/-!
Shallow embedding of src/client/src/MusicPlayer.tsx.

The component receives chord instructions over a WebSocket and triggers
playback on seven synthesizers.  We model observable behaviour as traces of
`ToneEvent`s: calls into the Tone.js library (attack, release,
attack-release) plus console logging.  Times are rationals (seconds).
Exceptions thrown by the library during triggering are modelled by a fault
oracle `f : Nat → Option String` giving, for each primitive trigger call in
order, whether it throws and with what message.
-/

set_option autoImplicit false

namespace MusicPlayer

/-- Times (seconds) are modelled as rationals. -/
abbrev Time := ℚ

/-- Observable calls made by the component: Tone.js trigger calls and
console output.  `attack instr note t` is `synth.triggerAttack(note, t)`;
`releaseNote` is the sampler-style `triggerRelease(note, t)`; `release` is
the synth-style `triggerRelease(t)`; `attackRelease` is
`triggerAttackRelease(note, duration, t)`. -/
inductive ToneEvent where
  | attack (instrument note : String) (time : Time)
  | releaseNote (instrument note : String) (time : Time)
  | release (instrument : String) (time : Time)
  | attackRelease (instrument note : String) (duration : Option String) (time : Time)
  | log (msg : String)
  deriving DecidableEq, Repr

/-- An event is a synthesizer trigger call (anything but console output). -/
def ToneEvent.isTrigger : ToneEvent → Bool
  | .log _ => false
  | _ => true

/-- An event is a `triggerAttack` call. -/
def ToneEvent.isAttack : ToneEvent → Bool
  | .attack _ _ _ => true
  | _ => false

/-- The synthesizer trigger calls in a trace. -/
def triggerEvents (l : List ToneEvent) : List ToneEvent :=
  l.filter ToneEvent.isTrigger

/-- The `triggerAttack` calls in a trace. -/
def attackEvents (l : List ToneEvent) : List ToneEvent :=
  l.filter ToneEvent.isAttack

/-- The `chordMap` object literal inside `chordToNotes`: its own
enumerable keys with their values, in source order. -/
def chordTable : List (String × List String) :=
  [("Amaj", ["A", "C#", "E"]),
   ("Bmaj", ["B", "D#", "F#"]),
   ("Cmaj", ["C", "E", "G"]),
   ("Dmaj", ["D", "F#", "A"]),
   ("Emaj", ["E", "G#", "B"]),
   ("Fmaj", ["F", "A", "C"]),
   ("Gmaj", ["G", "B", "D"]),
   ("Amin", ["A", "C", "E"]),
   ("Bmin", ["B", "D", "F#"]),
   ("Cmin", ["C", "Eb", "G"]),
   ("Dmin", ["D", "F", "A"]),
   ("Emin", ["E", "G", "B"]),
   ("Fmin", ["F", "Ab", "C"]),
   ("Gmin", ["G", "Bb", "D"])]

/-- Property lookup `chordMap[chord]`: `some notes` when `chord` is a key
of the object, `none` (JS `undefined`) otherwise. -/
def chordMap (chord : String) : Option (List String) :=
  (chordTable.find? (fun p => p.1 == chord)).map (fun p => p.2)

/-- `chordToNotes`: `return chordMap[chord] || []`.  Every list in the table
is non-empty, so the only falsy lookup result is `undefined`. -/
def chordToNotes (chord : String) : List String :=
  (chordMap chord).getD []

/-- The `timeTable` object: per-instrument note duration strings. -/
def timeTable (instrument : String) : Option String :=
  if instrument = "snare" then some "8n"
  else if instrument = "kick" then some "2n"
  else if instrument = "bass_drum" then some "2n"
  else if instrument = "hihat" then some "16n"
  else if instrument = "bass_guitar" then some "2n"
  else if instrument = "guitar" then some "2n"
  else if instrument = "piano" then some "2n"
  else none

/-- The Tone.js class of each synthesizer in the `Synths` record. -/
inductive SynthKind where
  | membraneSynth
  | noiseSynth
  | metalSynth
  | synth
  | polySynth
  | sampler
  deriving DecidableEq, Repr

/-- `synth instanceof Tone.Sampler`. -/
def SynthKind.isSampler : SynthKind → Bool
  | .sampler => true
  | _ => false

/-- The runtime test `triggerAttack in synth`: every Tone.js synthesizer
class used here (MembraneSynth, NoiseSynth, MetalSynth, Synth, PolySynth,
Sampler) exposes `triggerAttack`, so the test is true for all of them and
the `triggerAttackRelease` else-branch of the source is dead at runtime. -/
def SynthKind.hasTriggerAttack : SynthKind → Bool
  | _ => true

/-- Property lookup `synths[instrument]` on a fully loaded `Synths` record:
the seven own keys established by the synth initializer, anything else is
`undefined`. -/
def synthsLookup (instrument : String) : Option SynthKind :=
  if instrument = "kick" then some .membraneSynth
  else if instrument = "snare" then some .noiseSynth
  else if instrument = "bass_drum" then some .membraneSynth
  else if instrument = "hihat" then some .metalSynth
  else if instrument = "bass_guitar" then some .synth
  else if instrument = "guitar" then some .polySynth
  else if instrument = "piano" then some .sampler
  else none

/-- JS truthiness test `!chordOrNote` on a `string | undefined` value:
true for `undefined` and for the empty string. -/
def jsFalsyStr : Option String → Bool
  | none => true
  | some s => s == ""

/-- `if (note.length === 1) note + "4" else note` (the `noteWithOctave`
local of `playInstrument`). -/
def noteWithOctave (note : String) : String :=
  if note.length = 1 then note ++ "4" else note

/-- The trigger calls issued for one note by the body of the `forEach`
callback, given the synthesizer kind (the three-way dispatch on
`instanceof Tone.Sampler` / `triggerAttack in synth` / else). -/
def noteCalls (kind : SynthKind) (instrument note : String) (t : Time) : List ToneEvent :=
  if kind.isSampler then
    [ToneEvent.attack instrument note t,
     ToneEvent.releaseNote instrument note (t + 5/10)]
  else if kind.hasTriggerAttack then
    [ToneEvent.attack instrument note t,
     ToneEvent.release instrument (t + 5/10)]
  else
    [ToneEvent.attackRelease instrument note (timeTable instrument) t]

/-- Run a list of primitive trigger calls under the fault oracle `f`,
starting at call counter `cnt`.  Returns the events that actually happened
before any throw, the next counter value, and the thrown message if any. -/
def runCalls (f : Nat → Option String) (cnt : Nat) :
    List ToneEvent → List ToneEvent × Nat × Option String
  | [] => ([], cnt, none)
  | c :: rest =>
    match f cnt with
    | some e => ([], cnt, some e)
    | none =>
      let r := runCalls f (cnt + 1) rest
      (c :: r.1, r.2.1, r.2.2)

/-- The `notes.forEach((note, index) => ...)` loop of `playInstrument`:
each note is normalized by `noteWithOctave`, scheduled at
`Tone.now() + index * 0.2 + 0.1`, and triggered; a throw inside the
callback aborts the iteration and propagates out of `forEach`. -/
def runNotes (kind : SynthKind) (instrument : String) (now : Time)
    (f : Nat → Option String) (cnt idx : Nat) :
    List String → List ToneEvent × Nat × Option String
  | [] => ([], cnt, none)
  | note :: rest =>
    let t : Time := now + (idx : ℚ) * (2/10) + 1/10
    let r1 := runCalls f cnt (noteCalls kind instrument (noteWithOctave note) t)
    match r1.2.2 with
    | some e => (r1.1, r1.2.1, some e)
    | none =>
      let r2 := runNotes kind instrument now f r1.2.1 (idx + 1) rest
      (r1.1 ++ r2.1, r2.2.1, r2.2.2)

/-- `try { body } catch (error) { console.error(...) }`: the events the body
emitted before a throw did happen; a thrown error is replaced by the
handler output and nothing propagates. -/
def tryCatch (body : List ToneEvent × Option String)
    (handler : String → List ToneEvent) : List ToneEvent × Option String :=
  match body.2 with
  | none => (body.1, none)
  | some e => (body.1 ++ handler e, none)

/-- `playInstrument`: the guard `if (!chordOrNote || !synths)` logs and
returns; the lookup `synths[instrument]` logs and returns when `undefined`;
otherwise the try block logs, resolves the chord and triggers each note,
with any throw caught and logged.  The result is the pair of the emitted
event trace and the exception propagated to the caller (if any). -/
def playInstrument (synthsLoaded : Bool) (instrument : String)
    (chordOrNote : Option String) (now : Time) (f : Nat → Option String) :
    List ToneEvent × Option String :=
  if jsFalsyStr chordOrNote || !synthsLoaded then
    ([ToneEvent.log "Synths not loaded or invalid note"], none)
  else
    match synthsLookup instrument with
    | none => ([ToneEvent.log ("Instrument " ++ instrument ++ " not found")], none)
    | some kind =>
      let chord := chordOrNote.getD ""
      let r := runNotes kind instrument now f 0 0 (chordToNotes chord)
      tryCatch
        (ToneEvent.log ("Playing " ++ instrument ++ " notes " ++ chord) :: r.1, r.2.2)
        (fun e => [ToneEvent.log ("Error in playInstrument for " ++ instrument ++ ": " ++ e)])

/-- Parsed JSON values, the result of `JSON.parse` on an inbound message. -/
inductive Json where
  | str : String → Json
  | num : ℚ → Json
  | bool : Bool → Json
  | null : Json
  | arr : List Json → Json
  | obj : List (String × Json) → Json

/-- `Object.entries(bundle)`: the own enumerable key/value pairs.  Objects
yield their fields in order; arrays and strings yield index-keyed entries;
primitives yield nothing. -/
def jsonEntries : Json → List (String × Json)
  | .obj fs => fs
  | .arr xs => xs.enum.map (fun p => (toString p.1, p.2))
  | .str s => s.toList.enum.map (fun p => (toString p.1, Json.str p.2.toString))
  | _ => []

/-- `typeof chord === "string"`. -/
def Json.isString : Json → Bool
  | .str _ => true
  | _ => false

/-- `onMessage`: `JSON.parse(event.data)` is modelled by the `parsed`
argument; a parse failure (`Except.error`) propagates uncaught, since the
handler has no try/catch.  On success, `Object.entries` is iterated and
`playInstrument` is invoked for each string-valued field (key as
instrument, value as chord); `playInstrument` returns `undefined`, so
`filter(Boolean)` leaves an empty list and `Promise.all` is a no-op.  The
fault oracle `fs` gives each entry index its own trigger-fault oracle.
The result is the event trace of the whole handler call. -/
def onMessage (synthsLoaded : Bool) (parsed : Except String Json) (now : Time)
    (fs : Nat → Nat → Option String) : Except String (List ToneEvent) :=
  match parsed with
  | .error e => .error e
  | .ok bundle =>
    .ok ((jsonEntries bundle).enum.flatMap (fun p =>
      match p.2.2 with
      | Json.str chord => (playInstrument synthsLoaded p.2.1 (some chord) now (fs p.1)).1
      | _ => []))

/-- States of the shared audio output context (Web Audio semantics). -/
inductive AudioState where
  | suspended
  | running
  | closed
  deriving DecidableEq, Repr

/-- `audioContext.resume()`: a suspended context becomes running; resuming
a running context keeps it running; resuming a closed context fails and
leaves it closed (the failure is caught and logged by the caller). -/
def resumeCtx : AudioState → AudioState
  | .suspended => .running
  | .running => .running
  | .closed => .closed

/-- `audioContext.close()`: the context becomes (or stays) closed. -/
def closeCtx : AudioState → AudioState
  | _ => .closed

/-- `handleStartAudio`: resume the context unless its state is already
`running`.  Returns the new state and whether `resume` was called. -/
def handleStartAudio (s : AudioState) : AudioState × Bool :=
  if s ≠ AudioState.running then (resumeCtx s, true) else (s, false)

/-- `handleStopAudio`: close the context only when its state is `running`.
Returns the new state and whether `close` was called. -/
def handleStopAudio (s : AudioState) : AudioState × Bool :=
  if s = AudioState.running then (closeCtx s, true) else (s, false)

/-! Helper lemmas shared by the claim theorems. -/

/-- A try/catch never propagates an exception. -/
theorem tryCatch_snd (body : List ToneEvent × Option String)
    (handler : String → List ToneEvent) : (tryCatch body handler).2 = none := by
  unfold tryCatch
  cases body.2 <;> rfl

/-- Flat-mapping a per-entry dispatch that skips non-string values equals
first selecting the string-valued entries and then dispatching each. -/
theorem flatMap_str_filterMap (g : Nat → String → String → List ToneEvent) :
    ∀ l : List (Nat × (String × Json)),
      (l.flatMap (fun p => match p.2.2 with
        | Json.str c => g p.1 p.2.1 c
        | _ => [])) =
      ((l.filterMap (fun p => match p.2.2 with
        | Json.str c => some (p.1, p.2.1, c)
        | _ => none)).flatMap (fun q => g q.1 q.2.1 q.2.2)) := by
  intro l
  induction l with
  | nil => rfl
  | cons p rest ih =>
    obtain ⟨i, k, v⟩ := p
    cases v <;> simp [ih]

/-! The claim theorems. -/

/-- C1: For every chord name that is a key of the static chord table,
chordToNotes returns exactly the 3 note names in the order listed in the
table; for every string that is not a key of the table, it returns the
empty list. -/
theorem chordToNotes_table (c : String) :
    (∀ l, chordMap c = some l → chordToNotes c = l ∧ l.length = 3) ∧
    (chordMap c = none → chordToNotes c = []) := by
  constructor
  · intro l h
    constructor
    · unfold chordToNotes
      rw [h]
      rfl
    · unfold chordMap at h
      obtain ⟨p, hfind, hsnd⟩ := Option.map_eq_some'.mp h
      have hmem : p ∈ chordTable := List.mem_of_find?_eq_some hfind
      have hall : ∀ q ∈ chordTable, q.2.length = 3 := by decide
      rw [← hsnd]
      exact hall p hmem
  · intro h
    unfold chordToNotes
    rw [h]
    rfl

/-- Witness for C1 at the table key Cmaj. -/
theorem chordToNotes_table_witness :
    chordToNotes "Cmaj" = ["C", "E", "G"] ∧ (["C", "E", "G"] : List String).length = 3 :=
  (chordToNotes_table "Cmaj").1 ["C", "E", "G"] (by decide)

/-- C2: with the synth set loaded, handling the message with payload
parsed as the object with the single field kick = Cmaj issues exactly 3
triggerAttack calls for the kick synthesizer, at times now + 0.1, now + 0.3
and now + 0.5, with notes C4, E4 and G4 in that order. -/
theorem kick_Cmaj_message_events (now : Time) :
    (onMessage true (Except.ok (Json.obj [("kick", Json.str "Cmaj")])) now
        (fun _ _ => none)).map attackEvents =
      Except.ok [ToneEvent.attack "kick" "C4" (now + 1/10),
                 ToneEvent.attack "kick" "E4" (now + 3/10),
                 ToneEvent.attack "kick" "G4" (now + 5/10)] := by
  have hne : jsFalsyStr (some "Cmaj") = false := by decide
  have hsyn : synthsLookup "kick" = some SynthKind.membraneSynth := by decide
  have hchord : chordToNotes "Cmaj" = ["C", "E", "G"] := by decide
  have hC : noteWithOctave "C" = "C4" := by decide
  have hE : noteWithOctave "E" = "E4" := by decide
  have hG : noteWithOctave "G" = "G4" := by decide
  simp [onMessage, jsonEntries, playInstrument, hne, hsyn, hchord, runNotes,
    runCalls, noteCalls, hC, hE, hG, SynthKind.isSampler,
    SynthKind.hasTriggerAttack, tryCatch, attackEvents, ToneEvent.isAttack,
    Except.map]
  constructor <;> ring

/-- C3: for every instrument name that is not a key of the loaded synth
set, playInstrument performs zero synthesizer trigger calls and propagates
no exception, whatever the chord string and whatever trigger faults the
environment would have produced. -/
theorem unknown_instrument_no_trigger (instr : String) (h : synthsLookup instr = none)
    (c : Option String) (now : Time) (f : Nat → Option String) :
    triggerEvents (playInstrument true instr c now f).1 = [] ∧
    (playInstrument true instr c now f).2 = none := by
  unfold playInstrument
  cases hc : jsFalsyStr c <;>
    simp [hc, h, triggerEvents, ToneEvent.isTrigger]

/-- Witness for C3 at the unknown instrument flute. -/
theorem unknown_instrument_no_trigger_witness :
    triggerEvents (playInstrument true "flute" (some "Cmaj") 0 (fun _ => none)).1 = [] ∧
    (playInstrument true "flute" (some "Cmaj") 0 (fun _ => none)).2 = none :=
  unknown_instrument_no_trigger "flute" (by decide) (some "Cmaj") 0 (fun _ => none)

/-- C4: for every instrument name, playInstrument with an undefined
chord/note value performs zero synthesizer trigger calls, whether or not
the synth set is loaded. -/
theorem playInstrument_undefined_no_trigger (b : Bool) (instr : String) (now : Time)
    (f : Nat → Option String) :
    triggerEvents (playInstrument b instr none now f).1 = [] := by
  simp [playInstrument, jsFalsyStr, triggerEvents, ToneEvent.isTrigger]

/-- C5: a single-character note name is normalized by appending the default
octave digit 4; a multi-character note name is passed through unchanged. -/
theorem noteWithOctave_normalizes (note : String) :
    (note.length = 1 → noteWithOctave note = note ++ "4") ∧
    (note.length ≠ 1 → noteWithOctave note = note) := by
  constructor <;> intro h <;> simp [noteWithOctave, h]

/-- Witness for C5 at the notes C and C#. -/
theorem noteWithOctave_normalizes_witness :
    noteWithOctave "C" = "C" ++ "4" ∧ noteWithOctave "C#" = "C#" :=
  ⟨(noteWithOctave_normalizes "C").1 (by decide),
   (noteWithOctave_normalizes "C#").2 (by decide)⟩

/-- C6: for every payload parsing to a JSON object, onMessage dispatches
playInstrument exactly once per string-valued field, in field order,
passing the key as the instrument and the value as the chord, and performs
no dispatch for fields whose value is not a string. -/
theorem onMessage_dispatch_per_string_field (b : Bool) (fields : List (String × Json))
    (now : Time) (fs : Nat → Nat → Option String) :
    onMessage b (Except.ok (Json.obj fields)) now fs =
      Except.ok ((fields.enum.filterMap (fun p =>
        match p.2.2 with
        | Json.str c => some (p.1, p.2.1, c)
        | _ => none)).flatMap
        (fun q => (playInstrument b q.2.1 (some q.2.2) now (fs q.1)).1)) :=
  congrArg Except.ok
    (flatMap_str_filterMap
      (fun i k c => (playInstrument b k (some c) now (fs i)).1) fields.enum)

/-- C7: a JSON parse failure on an inbound message is not caught anywhere
in onMessage; it propagates to the caller unchanged. -/
theorem onMessage_parse_error_propagates (b : Bool) (e : String) (now : Time)
    (fs : Nat → Nat → Option String) :
    onMessage b (Except.error e) now fs = Except.error e := rfl

/-- C8: starting audio while the context is running performs no resume call
and leaves the state unchanged; stopping audio while the context is not
running performs no close call and leaves the state unchanged. -/
theorem audio_controls_noop :
    handleStartAudio AudioState.running = (AudioState.running, false) ∧
    ∀ s : AudioState, s ≠ AudioState.running → handleStopAudio s = (s, false) := by
  refine ⟨rfl, ?_⟩
  intro s hs
  simp [handleStopAudio, hs]

/-- Witness for C8 at the suspended state. -/
theorem audio_controls_noop_witness :
    handleStopAudio AudioState.suspended = (AudioState.suspended, false) :=
  audio_controls_noop.2 AudioState.suspended (by decide)

/-- C9: playInstrument never propagates an exception to its caller: every
trigger fault is swallowed by the try/catch and the dispatcher returns
normally, for all inputs and all fault oracles. -/
theorem playInstrument_no_exception (b : Bool) (instr : String) (c : Option String)
    (now : Time) (f : Nat → Option String) :
    (playInstrument b instr c now f).2 = none := by
  unfold playInstrument
  split
  · rfl
  · split
    · rfl
    · exact tryCatch_snd _ _

/-- C10: for every chord/note string that is not a key of the chord table,
bare note names such as C or C# included, playInstrument performs zero
synthesizer trigger calls for any instrument: only chords listed in the
table are ever played. -/
theorem unknown_chord_no_trigger (c : String) (h : chordMap c = none)
    (b : Bool) (instr : String) (now : Time) (f : Nat → Option String) :
    triggerEvents (playInstrument b instr (some c) now f).1 = [] := by
  unfold playInstrument
  cases b
  · simp [triggerEvents, ToneEvent.isTrigger]
  · cases hc : jsFalsyStr (some c)
    · cases hs : synthsLookup instr
      · simp [hc, hs, triggerEvents, ToneEvent.isTrigger]
      · simp [hc, hs, chordToNotes, h, runNotes, tryCatch, triggerEvents,
          ToneEvent.isTrigger]
    · simp [hc, triggerEvents, ToneEvent.isTrigger]

/-- Witness for C10 at the bare note name C played on the kick. -/
theorem unknown_chord_no_trigger_witness :
    triggerEvents (playInstrument true "kick" (some "C") 0 (fun _ => none)).1 = [] :=
  unknown_chord_no_trigger "C" (by decide) true "kick" 0 (fun _ => none)

end MusicPlayer
